import Mathlib

/-!
# Verification of the Storage backend base contract

Shallow embedding of `src/prefect/storage/base.py` (class `Storage`, the
abstract base for all storage backends): construction-time normalization,
label resolution, the optional-operation defaults, serialization
delegation, the `ABCMeta` instantiation gate for the three abstract
methods, and the health-check gate, together with theorems settling the
specified properties.
-/

namespace Prefect

/-- Opaque model of a default result object (`prefect.engine.result.Result`),
external to this core. -/
structure Result where
  id : Nat
deriving DecidableEq, Repr

/-- Opaque model of a workflow artifact (`prefect.core.flow.Flow`),
external to this core. -/
structure Flow where
  id : Nat
deriving DecidableEq, Repr

/-- Opaque model of a runner capability, the return value of
`get_env_runner` when a backend supports it. -/
structure Runner where
  id : Nat
deriving DecidableEq, Repr

/-- The process-wide configuration source.  The single key this core
consults is `flows.defaults.storage.add_default_labels`. -/
structure Config where
  flows_defaults_storage_add_default_labels : Bool
deriving DecidableEq, Repr

/-- Failure conditions surfaced by the contract:
`notImplementedError` models Python's `NotImplementedError` raised by the
optional-operation defaults; `typeError` models the `TypeError` that
`ABCMeta` raises at instantiation, carrying the class name and the list
of still-abstract methods; `healthCheckError` models a failure raised by
the external result-compatibility checker. -/
inductive StorageErr where
  | notImplementedError
  | typeError (className : String) (methods : List String)
  | healthCheckError (msg : String)
deriving DecidableEq, Repr

/-- The attribute state of a `Storage` instance after `__init__`.
`typeName` models `type(self).__name__` (the concrete subclass's
identifier); `default_labels` models the overridable `default_labels`
property, which the base implementation returns as `[]` and concrete
backends may override with a fixed list.  `flows` models the optional
`_flows` attribute used by `run_basic_healthchecks`: the base `__init__`
never sets it, so `none` means `hasattr(self, "_flows")` is false, and
`some d` models the attribute holding the insertion-ordered registry
dict `d`. -/
structure Storage where
  typeName : String
  result : Option Result
  secrets : List String
  stored_as_script : Bool
  _labels : List String
  add_default_labels : Bool
  default_labels : List String
  flows : Option (List (String × Flow))
deriving DecidableEq, Repr

/-- Python truthiness of `x or []` for an optional list argument:
`None or []` is `[]`, `[] or []` is `[]`, and a non-empty list is
returned unchanged. -/
def pyListOr {α : Type} (x : Option (List α)) : List α :=
  match x with
  | none => []
  | some l => if l.isEmpty then [] else l

/-- `Storage.__init__`: stores `result` and `stored_as_script` as given,
normalizes `secrets` and `labels` with `or []`, and resolves
`add_default_labels` from the configuration key
`config.flows.defaults.storage.add_default_labels` exactly when the
argument `is None`, otherwise stores the explicit value.  The `_flows`
attribute is not set by `__init__`. -/
def Storage.init (cfg : Config) (typeName : String) (default_labels : List String)
    (result : Option Result) (secrets : Option (List String))
    (labels : Option (List String)) (add_default_labels : Option Bool)
    (stored_as_script : Bool) : Storage :=
  { typeName := typeName
    result := result
    secrets := pyListOr secrets
    stored_as_script := stored_as_script
    _labels := pyListOr labels
    add_default_labels :=
      match add_default_labels with
      | none => cfg.flows_defaults_storage_add_default_labels
      | some b => b
    default_labels := default_labels
    flows := none }

/-- The `labels` property: `if not self.add_default_labels: return
self._labels`; otherwise `list(set(self._labels) | set(self.default_labels))`
via `set.update`.  The source's `list(set(...))` enumerates in an
unspecified order, so the embedding fixes the first-occurrence order
given by `dedup`; every theorem below states only order-independent
consequences of the merged branch (membership, `toFinset`, `Nodup`). -/
def Storage.labels (s : Storage) : List String :=
  if ! s.add_default_labels then
    s._labels
  else
    (s._labels ++ s.default_labels).dedup

/-- The optional operation `get_env_runner`: the base implementation
unconditionally raises `NotImplementedError`. -/
def Storage.get_env_runner (s : Storage) (flow_location : String) :
    Except StorageErr Runner :=
  Except.error StorageErr.notImplementedError

/-- The optional operation `get_flow`: the base implementation
unconditionally raises `NotImplementedError`. -/
def Storage.get_flow (s : Storage) (flow_location : String) :
    Except StorageErr Flow :=
  Except.error StorageErr.notImplementedError

/-- The `name` property: `type(self).__name__`, for concrete backends
that do not override it. -/
def Storage.name (s : Storage) : String :=
  s.typeName

/-- Modelled from the spec: `prefect.serialization.storage.StorageSchema`
is an external collaborator whose code is not under `src/`.  Per the
spec, its `dump` produces a mapping of the instance's attributes tagged
with a discriminator field identifying the concrete backend type. -/
def StorageSchema.dump (s : Storage) : List (String × String) :=
  [("type", s.typeName),
   ("secrets", String.intercalate "," s.secrets),
   ("labels", String.intercalate "," s.labels),
   ("stored_as_script", toString s.stored_as_script)]

/-- `Storage.serialize`: obtains the schema object for the storage and
returns `schema.dump(self)`. -/
def Storage.serialize (s : Storage) : List (String × String) :=
  StorageSchema.dump s

/-- `dict.values()` of the insertion-ordered `_flows` registry. -/
def dictValues (d : List (String × Flow)) : List Flow :=
  d.map Prod.snd

/-- `Storage.run_basic_healthchecks`: returns immediately when the
instance has no `_flows` attribute, otherwise calls the external
checker `_healthcheck.result_check` on `self._flows.values()`.  The
checker lives outside `src/`, so the embedding takes its behavior as a
parameter `result_check`; the method body contains no attribute
assignment, so the state-passing translation returns the instance it
was given alongside the checker's outcome. -/
def Storage.run_basic_healthchecks (s : Storage)
    (result_check : List Flow → Except StorageErr Unit) :
    Except StorageErr Unit × Storage :=
  match s.flows with
  | none => (Except.ok (), s)
  | some d => (result_check (dictValues d), s)

/-- A concrete backend type: its identifier, its fixed default-label
override, and an optional implementation for each of the three
`@abstractmethod` operations of the base contract (`add_flow`,
`__contains__`, `build`); `none` means the concrete type does not
override that abstract method. -/
structure ConcreteStorageType where
  typeName : String
  default_labels : List String
  add_flow : Option (Storage → Flow → String × Storage)
  contains : Option (Storage → Flow → Bool)
  build : Option (Storage → Storage)

/-- The abstract methods a concrete type leaves unimplemented, in the
order they are declared on the base class. -/
def ConcreteStorageType.abstractMethods (t : ConcreteStorageType) : List String :=
  (if t.add_flow.isNone then ["add_flow"] else []) ++
  (if t.contains.isNone then ["__contains__"] else []) ++
  (if t.build.isNone then ["build"] else [])

/-- Instantiation under `ABCMeta` (the metaclass of `Storage` in the
source): constructing an instance of a type that still has abstract
methods raises `TypeError` before `__init__` runs; otherwise
`__init__` produces the instance. -/
def ConcreteStorageType.instantiate (t : ConcreteStorageType) (cfg : Config)
    (result : Option Result) (secrets : Option (List String))
    (labels : Option (List String)) (add_default_labels : Option Bool)
    (stored_as_script : Bool) : Except StorageErr Storage :=
  if t.abstractMethods.isEmpty then
    Except.ok (Storage.init cfg t.typeName t.default_labels result secrets labels
      add_default_labels stored_as_script)
  else
    Except.error (StorageErr.typeError t.typeName t.abstractMethods)

/-- A concrete backend instance used as a witness input: constructed with
`labels=["a","b"]`, `add_default_labels=True`, and a concrete subclass
whose `default_labels` override returns `["b","c"]`. -/
def storageAB : Storage :=
  Storage.init { flows_defaults_storage_add_default_labels := false } "Local" ["b", "c"]
    none none (some ["a", "b"]) (some true) false

/-- `storageAB` after a registry-producing step has set the `_flows`
attribute with two tracked artifacts. -/
def builtStorage : Storage :=
  { storageAB with flows := some [("loc1", { id := 1 }), ("loc2", { id := 2 })] }

/-- A checker behavior that reports an incompatibility. -/
def alwaysFail : List Flow → Except StorageErr Unit :=
  fun _ => Except.error (StorageErr.healthCheckError "incompatible result")

/-- A backend instance constructed with a duplicated explicit label list
and `add_default_labels=False`. -/
def storageDup : Storage :=
  Storage.init { flows_defaults_storage_add_default_labels := true } "Local" []
    none none (some ["a", "a"]) (some false) false

/-- C1: with `add_default_labels` true, `labels()` is the set union of
the explicit labels and the backend's default labels (duplicates
collapsed, order not guaranteed); with it false, `labels()` is the
explicit label list exactly. -/
theorem labels_resolution (s : Storage) :
    (s.add_default_labels = true →
      s.labels.toFinset = s._labels.toFinset ∪ s.default_labels.toFinset) ∧
    (s.add_default_labels = false → s.labels = s._labels) := by
  constructor
  · intro h
    ext a
    simp [Storage.labels, h, List.mem_dedup]
  · intro h
    simp [Storage.labels, h]

/-- C1 witness: the backend constructed with `labels=["a","b"]`,
`add_default_labels=True` and `default_labels=["b","c"]` satisfies the
union equation, and its label set is exactly `{"a","b","c"}`. -/
theorem labels_resolution_witness :
    storageAB.labels.toFinset =
      storageAB._labels.toFinset ∪ storageAB.default_labels.toFinset ∧
    storageAB.labels.toFinset = ({"a", "b", "c"} : Finset String) :=
  ⟨(labels_resolution storageAB).1 rfl, by decide⟩

/-- C2: `run_basic_healthchecks()` returns successfully when the
instance has no `_flows` registry, whatever the checker would do; when
the registry is present its outcome is exactly the checker's outcome on
every currently tracked artifact, propagated unchanged. -/
theorem run_basic_healthchecks_gate (s : Storage)
    (result_check : List Flow → Except StorageErr Unit) :
    (s.flows = none →
      (s.run_basic_healthchecks result_check).1 = Except.ok ()) ∧
    (∀ d, s.flows = some d →
      (s.run_basic_healthchecks result_check).1 = result_check (dictValues d)) := by
  constructor
  · intro h
    simp [Storage.run_basic_healthchecks, h]
  · intro d h
    simp [Storage.run_basic_healthchecks, h]

/-- C2 witness: on a backend without the registry a failing checker is
never consulted and the call returns successfully, while on a backend
with a registry the checker's failure comes back unchanged. -/
theorem run_basic_healthchecks_gate_witness :
    (storageAB.run_basic_healthchecks alwaysFail).1 = Except.ok () ∧
    (builtStorage.run_basic_healthchecks alwaysFail).1 =
      Except.error (StorageErr.healthCheckError "incompatible result") :=
  ⟨(run_basic_healthchecks_gate storageAB alwaysFail).1 rfl,
   (run_basic_healthchecks_gate builtStorage alwaysFail).2
     [("loc1", { id := 1 }), ("loc2", { id := 2 })] rfl⟩

/-- C3: when `add_default_labels` is given explicitly (including an
explicit false) construction is independent of the ambient
configuration; the explicit value is stored as given; and `labels()` is
a pure function of the stored fields `_labels`, `add_default_labels`,
and `default_labels` alone. -/
theorem config_read_only_at_construction
    (cfg cfg' : Config) (tn : String) (dl : List String) (r : Option Result)
    (sec lab : Option (List String)) (b : Bool) (st : Bool) (s t : Storage) :
    (Storage.init cfg tn dl r sec lab (some b) st =
      Storage.init cfg' tn dl r sec lab (some b) st) ∧
    ((Storage.init cfg tn dl r sec lab (some b) st).add_default_labels = b) ∧
    (s._labels = t._labels → s.add_default_labels = t.add_default_labels →
      s.default_labels = t.default_labels → s.labels = t.labels) := by
  refine ⟨rfl, rfl, ?_⟩
  intro h1 h2 h3
  simp [Storage.labels, h1, h2, h3]

/-- C3 witness: constructing with an explicit `add_default_labels=False`
under opposite ambient configuration values yields identical instances
with the explicit false honored, and `labels()` on a fixed instance is
determined by its three stored fields. -/
theorem config_read_only_at_construction_witness :
    (Storage.init { flows_defaults_storage_add_default_labels := true } "Local" []
        none none none (some false) false =
      Storage.init { flows_defaults_storage_add_default_labels := false } "Local" []
        none none none (some false) false) ∧
    (Storage.init { flows_defaults_storage_add_default_labels := true } "Local" []
        none none none (some false) false).add_default_labels = false ∧
    storageAB.labels = storageAB.labels :=
  ⟨(config_read_only_at_construction
      { flows_defaults_storage_add_default_labels := true }
      { flows_defaults_storage_add_default_labels := false }
      "Local" [] none none none false false storageAB storageAB).1,
   (config_read_only_at_construction
      { flows_defaults_storage_add_default_labels := true }
      { flows_defaults_storage_add_default_labels := false }
      "Local" [] none none none false false storageAB storageAB).2.1,
   (config_read_only_at_construction
      { flows_defaults_storage_add_default_labels := true }
      { flows_defaults_storage_add_default_labels := false }
      "Local" [] none none none false false storageAB storageAB).2.2 rfl rfl rfl⟩

/-- C4: on a backend that does not override them, `get_env_runner` and
`get_flow` fail immediately with `NotImplementedError` for every
argument, and the failure is surfaced to the caller as is. -/
theorem optional_ops_not_implemented (s : Storage) (flow_location : String) :
    s.get_env_runner flow_location = Except.error StorageErr.notImplementedError ∧
    s.get_flow flow_location = Except.error StorageErr.notImplementedError :=
  ⟨rfl, rfl⟩

/-- C5 counterexample: a backend constructed with
`labels=["a","a"]` and `add_default_labels=False` returns
`["a","a"]` from `labels()`, which contains the same string twice, so
the claim that `labels()` is deduplicated for every value of
`add_default_labels` is false on the code. -/
theorem labels_dedup_counterexample :
    storageDup.labels = ["a", "a"] ∧ ¬ storageDup.labels.Nodup := by
  constructor
  · rfl
  · decide

/-- C5 amended: when `add_default_labels` is true, the collection
returned by `labels()` never contains the same string twice. -/
theorem labels_dedup_when_merging (s : Storage)
    (h : s.add_default_labels = true) : s.labels.Nodup := by
  have hl : s.labels = (s._labels ++ s.default_labels).dedup := by
    simp [Storage.labels, h]
  rw [hl]
  exact List.nodup_dedup _

/-- C5 witness: the merged label list of the concrete merging backend
has no duplicate. -/
theorem labels_dedup_when_merging_witness :
    storageAB.add_default_labels = true ∧ storageAB.labels.Nodup :=
  ⟨rfl, labels_dedup_when_merging storageAB rfl⟩

/-- C6: construction with `secrets=None` yields `secrets == []` and
construction with `labels=None` yields an empty explicit label store,
for every other constructor argument. -/
theorem construction_normalizes_none (cfg : Config) (tn : String)
    (dl : List String) (r : Option Result) (adl : Option Bool) (st : Bool) :
    (Storage.init cfg tn dl r none none adl st).secrets = [] ∧
    (Storage.init cfg tn dl r none none adl st)._labels = [] :=
  ⟨rfl, rfl⟩

/-- C7: `serialize()` produces a mapping for every instance, and the
mapping always contains the discriminator field identifying the
concrete backend type. -/
theorem serialize_has_discriminator (s : Storage) :
    ("type", s.typeName) ∈ s.serialize := by
  simp [Storage.serialize, StorageSchema.dump]

/-- C8: on a concrete backend type that does not override `name`, the
`name` attribute equals the concrete type's identifier string and never
the base contract's identifier `"Storage"`. -/
theorem name_is_concrete_type (s : Storage) (h : s.typeName ≠ "Storage") :
    s.name = s.typeName ∧ s.name ≠ "Storage" :=
  ⟨rfl, h⟩

/-- C8 witness: the concrete `Local` backend's `name` is `"Local"`,
not `"Storage"`. -/
theorem name_is_concrete_type_witness :
    storageAB.name = "Local" ∧ storageAB.name ≠ "Storage" :=
  ⟨(name_is_concrete_type storageAB (by decide)).1,
   (name_is_concrete_type storageAB (by decide)).2⟩

/-- C9: a concrete type that omits any of the three required operations
(`add_flow`, `__contains__`, or `build`) cannot be instantiated: for
every constructor argument list, instantiation fails immediately with
the type-level error naming the unimplemented abstract methods, and no
instance is produced. -/
theorem abstract_type_not_instantiable (t : ConcreteStorageType) (cfg : Config)
    (r : Option Result) (sec lab : Option (List String)) (adl : Option Bool)
    (st : Bool)
    (h : t.add_flow = none ∨ t.contains = none ∨ t.build = none) :
    t.instantiate cfg r sec lab adl st =
      Except.error (StorageErr.typeError t.typeName t.abstractMethods) := by
  have hmem : ∃ m, m ∈ t.abstractMethods := by
    rcases h with h | h | h
    · exact ⟨"add_flow", by simp [ConcreteStorageType.abstractMethods, h]⟩
    · exact ⟨"__contains__", by simp [ConcreteStorageType.abstractMethods, h]⟩
    · exact ⟨"build", by simp [ConcreteStorageType.abstractMethods, h]⟩
  have hne : t.abstractMethods.isEmpty = false := by
    cases hl : t.abstractMethods with
    | nil =>
        rcases hmem with ⟨m, hm⟩
        rw [hl] at hm
        cases hm
    | cons a l => rfl
  simp [ConcreteStorageType.instantiate, hne]

/-- A concrete type implementing only `__contains__` and `build` while
omitting `add_flow`. -/
def incompleteBackendType : ConcreteStorageType :=
  { typeName := "OnlyBuildAndContains"
    default_labels := []
    add_flow := none
    contains := some (fun _ _ => false)
    build := some (fun s => s) }

/-- C9 witness: constructing the type that implements only `build()`
and `contains()` fails at construction with the error naming
`add_flow`. -/
theorem abstract_type_not_instantiable_witness :
    incompleteBackendType.instantiate
        { flows_defaults_storage_add_default_labels := true }
        none none none none false =
      Except.error (StorageErr.typeError "OnlyBuildAndContains" ["add_flow"]) :=
  abstract_type_not_instantiable incompleteBackendType
    { flows_defaults_storage_add_default_labels := true }
    none none none none false (Or.inl rfl)

/-- C10: `run_basic_healthchecks()` never mutates the backend instance:
for every instance and every checker behavior, the instance after the
call is the one before it, in the no-registry branch and in the
delegating branch alike, whether the checker succeeds or fails. -/
theorem run_basic_healthchecks_frame (s : Storage)
    (result_check : List Flow → Except StorageErr Unit) :
    (s.run_basic_healthchecks result_check).2 = s := by
  cases h : s.flows <;> simp [Storage.run_basic_healthchecks, h]

end Prefect
